import Mathlib

/-!
Shallow embedding of the ESW-GPIO firmware (src/main.c): a button GPIO
interrupt handler sets a thread flag for a control task (button_loop),
which toggles suspend/resume of two periodic buzzer worker tasks
(buzzer_loop, buzzer_loop_two) according to the shared flag
buzzer_task_started.

The embedding models the global state the protocol touches, the scheduler
and interrupt primitives the code calls (as an explicit call trace plus a
semantics applying each call to the state), and each task body as a state
transformer.
-/

namespace EswGpio

/-- Interrupt flag for external interrupt 4 (main.c line 56: 0x00000010UL). -/
def ESWGPIO_EXTI_IF : Nat := 0x00000010

/-- Thread flag used to wake the button task (main.c line 81: 0x00000001). -/
def buttonExtIntThreadFlag : Nat := 0x00000001

/-- The three task handles created in set_up_tasks (main.c lines 128-141). -/
inductive TaskId
  | buzzer
  | buzzerTwo
  | button
  deriving DecidableEq, Repr

/-- Scheduler and interrupt-subsystem primitives the embedded code invokes,
recorded as a call trace. -/
inductive Call
  | threadSuspend (t : TaskId)
  | threadResume (t : TaskId)
  | threadFlagsSet (t : TaskId) (flag : Nat)
  | intClear (mask : Nat)
  deriving DecidableEq, Repr

/-- Global state shared between the interrupt handler, the control task and
the worker tasks: the boolean enum buzzer_task_started (T = true, F = false),
the button task's thread flag 0x1, the GPIO pending-and-enabled mask, the
run/suspend status of each worker task held by the scheduler, and the PA0
output pin the buzzers toggle. -/
structure SysState where
  buzzer_task_started : Bool
  buttonThreadFlag : Bool
  gpioPending : Nat
  buzzerSuspended : Bool
  buzzerTwoSuspended : Bool
  pinPA0 : Bool
  deriving DecidableEq, Repr

/-- Semantics of one scheduler / interrupt-subsystem call on the state:
osThreadSuspend and osThreadResume flip the target task's suspended status,
osThreadFlagsSet sets the button task's flag bit (idempotent),
GPIO_IntClear clears the masked bits of the 32-bit pending register. -/
def applyCall (s : SysState) : Call → SysState
  | Call.threadSuspend TaskId.buzzer => { s with buzzerSuspended := true }
  | Call.threadSuspend TaskId.buzzerTwo => { s with buzzerTwoSuspended := true }
  | Call.threadSuspend TaskId.button => s
  | Call.threadResume TaskId.buzzer => { s with buzzerSuspended := false }
  | Call.threadResume TaskId.buzzerTwo => { s with buzzerTwoSuspended := false }
  | Call.threadResume TaskId.button => s
  | Call.threadFlagsSet TaskId.button _ => { s with buttonThreadFlag := true }
  | Call.threadFlagsSet _ _ => s
  | Call.intClear m => { s with gpioPending := s.gpioPending &&& (2 ^ 32 - 1 - m) }

/-- Applies a trace of calls in order. -/
def applyCalls (s : SysState) (cs : List Call) : SysState := cs.foldl applyCall s

/-- GPIO_EVEN_IRQHandler (main.c lines 271-287): read the pending-and-enabled
mask; if the button's bit ESWGPIO_EXTI_IF is set, clear that pending bit and
set the button task's thread flag; otherwise do nothing. Returns the new
state and the trace of primitives invoked. -/
def GPIO_EVEN_IRQHandler (s : SysState) : SysState × List Call :=
  let pending := s.gpioPending
  if pending &&& ESWGPIO_EXTI_IF ≠ 0 then
    let calls := [Call.intClear ESWGPIO_EXTI_IF,
                  Call.threadFlagsSet TaskId.button buttonExtIntThreadFlag]
    (applyCalls s calls, calls)
  else
    (s, [])

/-- osThreadFlagsClear(buttonExtIntThreadFlag) at the head of button_loop's
loop (main.c line 183). -/
def button_flags_clear (s : SysState) : SysState :=
  { s with buttonThreadFlag := false }

/-- osThreadFlagsWait (main.c line 184) returns, rather than blocking, exactly
when the flag is currently set: the wait checks the flag's level, not only a
new set. -/
def button_wait_returns (s : SysState) : Bool := s.buttonThreadFlag

/-- Effect of osThreadFlagsWait returning: with osFlagsWaitAny the satisfying
flag is consumed on return. -/
def button_wait (s : SysState) : SysState :=
  { s with buttonThreadFlag := false }

/-- The toggle section of button_loop (main.c lines 190-205), run each time
the wait returns: if buzzer_task_started, suspend both buzzer tasks in order
and set the flag to F; else resume both in the same order and set it to T.
Returns the new state and the scheduler calls issued, in order. -/
def button_toggle (s : SysState) : SysState × List Call :=
  if s.buzzer_task_started then
    let calls := [Call.threadSuspend TaskId.buzzer, Call.threadSuspend TaskId.buzzerTwo]
    ({ applyCalls s calls with buzzer_task_started := false }, calls)
  else
    let calls := [Call.threadResume TaskId.buzzer, Call.threadResume TaskId.buzzerTwo]
    ({ applyCalls s calls with buzzer_task_started := true }, calls)

/-- One periodic iteration of buzzer_loop after its osDelay(70)
(main.c lines 144-160): toggle the PA0 pin and set buzzer_task_started to T. -/
def buzzer_loop_body (s : SysState) : SysState :=
  { s with pinPA0 := !s.pinPA0, buzzer_task_started := true }

/-- One periodic iteration of buzzer_loop_two after its osDelay(40)
(main.c lines 163-176): toggle the PA0 pin only. -/
def buzzer_loop_two_body (s : SysState) : SysState :=
  { s with pinPA0 := !s.pinPA0 }

/-- Global state right after startup, before any interrupt or buzzer
iteration: buzzer_task_started = F (main.c line 91), thread flag clear, no
pending interrupt, both worker tasks created running, pin low. -/
def initState : SysState :=
  { buzzer_task_started := false
    buttonThreadFlag := false
    gpioPending := 0
    buzzerSuspended := false
    buzzerTwoSuspended := false
    pinPA0 := false }

/-- A physical falling edge on the button: the hardware raises the pending
bit for external interrupt 4, then the platform invokes
GPIO_EVEN_IRQHandler. -/
def deliverEdge (s : SysState) : SysState :=
  (GPIO_EVEN_IRQHandler { s with gpioPending := s.gpioPending ||| ESWGPIO_EXTI_IF }).1

/-- One confirmed button edge, fully processed by the control task before the
next edge occurs: the edge is delivered, the pending wait returns consuming
the flag, button_loop runs its toggle section, then loops back and clears the
flag before blocking again. -/
def processOneEdge (s : SysState) : SysState :=
  button_flags_clear (button_toggle (button_wait (deliverEdge s))).1

/-- Bitwise fact: or-ing a mask in and then and-ing with the same mask yields
the mask. -/
lemma lor_land_self (a b : Nat) : (a ||| b) &&& b = b := by
  apply Nat.eq_of_testBit_eq
  intro i
  rw [Nat.testBit_land, Nat.testBit_lor]
  cases a.testBit i <;> cases b.testBit i <;> rfl

/-- Bitwise fact: after and-ing with the 32-bit complement of 0x10, bit 4 is
clear. -/
lemma land_mask_exti (p : Nat) : (p &&& (2 ^ 32 - 1 - 0x10)) &&& 0x10 = 0 := by
  apply Nat.eq_of_testBit_eq
  intro i
  rw [Nat.testBit_land, Nat.testBit_land, Nat.zero_testBit, Bool.and_assoc]
  have h : (2 ^ 32 - 1 - 0x10) &&& 0x10 = 0 := by decide
  have h2 : ((2 ^ 32 - 1 - 0x10) &&& 0x10).testBit i = ((2 ^ 32 - 1 - 0x10).testBit i && (0x10 : Nat).testBit i) := Nat.testBit_land _ _ _
  rw [h, Nat.zero_testBit] at h2
  rw [← h2, Bool.and_false]

/-- Behaviour of one confirmed, fully processed edge on the shared state:
buzzer_task_started flips, both workers end suspended exactly when the flag
was T on entry, and the wakeup flag ends cleared. -/
lemma processOneEdge_step (s : SysState) :
    (processOneEdge s).buzzer_task_started = !s.buzzer_task_started ∧
    (processOneEdge s).buzzerSuspended = s.buzzer_task_started ∧
    (processOneEdge s).buzzerTwoSuspended = s.buzzer_task_started ∧
    (processOneEdge s).buttonThreadFlag = false := by
  have hcond : (s.gpioPending ||| ESWGPIO_EXTI_IF) &&& ESWGPIO_EXTI_IF ≠ 0 := by
    rw [lor_land_self]; decide
  cases h : s.buzzer_task_started <;>
    simp [processOneEdge, deliverEdge, GPIO_EVEN_IRQHandler, hcond, button_wait,
          button_toggle, button_flags_clear, applyCalls, applyCall, h]

/-- Iterating processOneEdge preserves the coupling between the flag and the
workers' suspend status, and flips the flag once per edge. -/
lemma iterate_processOneEdge (n : Nat) (s : SysState)
    (h1 : s.buzzerSuspended = !s.buzzer_task_started)
    (h2 : s.buzzerTwoSuspended = !s.buzzer_task_started) :
    (processOneEdge^[n] s).buzzerSuspended = !(processOneEdge^[n] s).buzzer_task_started ∧
    (processOneEdge^[n] s).buzzerTwoSuspended = !(processOneEdge^[n] s).buzzer_task_started ∧
    (processOneEdge^[n] s).buzzer_task_started =
      ((decide (n % 2 = 1)).xor s.buzzer_task_started) := by
  induction n with
  | zero => simp [h1, h2]
  | succ n ih =>
    obtain ⟨ih1, ih2, ih3⟩ := ih
    rw [Function.iterate_succ_apply']
    obtain ⟨e1, e2, e3, _⟩ := processOneEdge_step (processOneEdge^[n] s)
    have hpar : decide ((n + 1) % 2 = 1) = !decide (n % 2 = 1) := by
      rcases Nat.mod_two_eq_zero_or_one n with h | h <;> simp [Nat.add_mod, h]
    refine ⟨?_, ?_, ?_⟩
    · rw [e2, e1, Bool.not_not]
    · rw [e3, e1, Bool.not_not]
    · rw [e1, ih3, hpar]
      cases decide (n % 2 = 1) <;> cases s.buzzer_task_started <;> rfl


/-- State with the Activity State Active and both workers running, as after
buzzer_loop's first periodic iteration has set the flag to T. -/
def activeState : SysState :=
  { initState with buzzer_task_started := true }

/-- C1: on a wake of the Control Task, if buzzer_task_started reads T the
toggle section issues osThreadSuspend for both workers in the fixed order
(buzzer then buzzerTwo) and then sets the flag to F; if it reads F it issues
osThreadResume for both in the same order and then sets the flag to T. -/
theorem button_toggle_branches (s : SysState) :
    (s.buzzer_task_started = true →
      (button_toggle s).2 =
        [Call.threadSuspend TaskId.buzzer, Call.threadSuspend TaskId.buzzerTwo] ∧
      (button_toggle s).1.buzzer_task_started = false) ∧
    (s.buzzer_task_started = false →
      (button_toggle s).2 =
        [Call.threadResume TaskId.buzzer, Call.threadResume TaskId.buzzerTwo] ∧
      (button_toggle s).1.buzzer_task_started = true) := by
  cases h : s.buzzer_task_started <;>
    simp [button_toggle, h, applyCalls, applyCall]

/-- Witness for C1: both branches evaluated at concrete states. -/
theorem button_toggle_branches_witness :
    (activeState.buzzer_task_started = true ∧
      (button_toggle activeState).2 =
        [Call.threadSuspend TaskId.buzzer, Call.threadSuspend TaskId.buzzerTwo] ∧
      (button_toggle activeState).1.buzzer_task_started = false) ∧
    (initState.buzzer_task_started = false ∧
      (button_toggle initState).2 =
        [Call.threadResume TaskId.buzzer, Call.threadResume TaskId.buzzerTwo] ∧
      (button_toggle initState).1.buzzer_task_started = true) :=
  ⟨⟨rfl, (button_toggle_branches activeState).1 rfl⟩,
   ⟨rfl, (button_toggle_branches initState).2 rfl⟩⟩

/-- C2 counterexample: button_loop is not the only writer of
buzzer_task_started after initialization: one iteration of buzzer_loop's
periodic body changes the flag (from F to T at the startup state). -/
theorem buzzer_loop_writes_flag :
    (buzzer_loop_body initState).buzzer_task_started ≠
      initState.buzzer_task_started := by
  decide

/-- C2 amended: buzzer_task_started has two writers: button_loop's toggle
section and buzzer_loop's periodic body, which stores T on every iteration;
buzzer_loop_two, the interrupt handler, the flag clear and the flag wait
never change it. -/
theorem buzzer_task_started_writers (s : SysState) :
    (buzzer_loop_body s).buzzer_task_started = true ∧
    (buzzer_loop_two_body s).buzzer_task_started = s.buzzer_task_started ∧
    (GPIO_EVEN_IRQHandler s).1.buzzer_task_started = s.buzzer_task_started ∧
    (button_flags_clear s).buzzer_task_started = s.buzzer_task_started ∧
    (button_wait s).buzzer_task_started = s.buzzer_task_started := by
  refine ⟨rfl, rfl, ?_, rfl, rfl⟩
  by_cases h : s.gpioPending &&& ESWGPIO_EXTI_IF ≠ 0 <;>
    simp [GPIO_EVEN_IRQHandler, h, applyCalls, applyCall]

/-- C3 counterexample: at startup buzzer_task_started does not hold T, the
value representing Active. -/
theorem init_flag_not_active : ¬ initState.buzzer_task_started = true := by
  decide

/-- C3 amended: at startup buzzer_task_started is initialized to F, the
representation of Suspended, even though both newly created workers are
running (not suspended). -/
theorem init_flag_is_F :
    initState.buzzer_task_started = false ∧
    initState.buzzerSuspended = false ∧
    initState.buzzerTwoSuspended = false := by
  decide

/-- C8: after any complete toggle by the Control Task, both members of the
worker task group are in the same run/suspend state. -/
theorem group_atomicity (s : SysState) :
    (button_toggle s).1.buzzerSuspended = (button_toggle s).1.buzzerTwoSuspended := by
  cases h : s.buzzer_task_started <;>
    simp [button_toggle, h, applyCalls, applyCall]

/-- C9: an invocation of GPIO_EVEN_IRQHandler in which the button's bit is
not set in the pending-and-enabled mask changes no state and invokes no
primitive. -/
theorem irq_handler_spurious_noop (s : SysState)
    (h : s.gpioPending &&& ESWGPIO_EXTI_IF = 0) :
    GPIO_EVEN_IRQHandler s = (s, []) := by
  simp [GPIO_EVEN_IRQHandler, h]

/-- Witness for C9: the startup state has no pending interrupt and the
handler leaves it untouched. -/
theorem irq_handler_spurious_noop_witness :
    initState.gpioPending &&& ESWGPIO_EXTI_IF = 0 ∧
      GPIO_EVEN_IRQHandler initState = (initState, []) :=
  ⟨by decide, irq_handler_spurious_noop initState (by decide)⟩

/-- C10: a button edge delivered and processed before buzzer_loop's first
periodic iteration finds buzzer_task_started still F, so button_loop takes
the resume branch, issuing resume calls against the already-running workers,
and sets the flag to T rather than suspending them. -/
theorem first_edge_takes_resume_branch :
    initState.buzzer_task_started = false ∧
    (button_wait (deliverEdge initState)).buzzer_task_started = false ∧
    (button_toggle (button_wait (deliverEdge initState))).2 =
      [Call.threadResume TaskId.buzzer, Call.threadResume TaskId.buzzerTwo] ∧
    (button_toggle (button_wait (deliverEdge initState))).1.buzzer_task_started = true ∧
    (button_toggle (button_wait (deliverEdge initState))).1.buzzerSuspended = false ∧
    (button_toggle (button_wait (deliverEdge initState))).1.buzzerTwoSuspended = false := by
  decide

/-- C4: starting from Activity State Active (flag T, both workers running),
after N confirmed edges, each fully processed before the next, the worker
group is suspended exactly when N is odd, and the flag reads T exactly when
N is even. -/
theorem toggle_parity (n : Nat) (s : SysState)
    (hA : s.buzzer_task_started = true)
    (h1 : s.buzzerSuspended = false)
    (h2 : s.buzzerTwoSuspended = false) :
    (processOneEdge^[n] s).buzzerSuspended = decide (n % 2 = 1) ∧
    (processOneEdge^[n] s).buzzerTwoSuspended = decide (n % 2 = 1) ∧
    (processOneEdge^[n] s).buzzer_task_started = decide (n % 2 = 0) := by
  obtain ⟨i1, i2, i3⟩ :=
    iterate_processOneEdge n s (by rw [h1, hA]; rfl) (by rw [h2, hA]; rfl)
  rw [hA] at i3
  rcases Nat.mod_two_eq_zero_or_one n with hm | hm <;>
    simp [hm] at i3 ⊢ <;> simp [i1, i2, i3]

/-- Witness for C4: three edges from the concrete Active state leave the
group suspended. -/
theorem toggle_parity_witness :
    activeState.buzzer_task_started = true ∧
    activeState.buzzerSuspended = false ∧
    activeState.buzzerTwoSuspended = false ∧
    ((processOneEdge^[3] activeState).buzzerSuspended = decide (3 % 2 = 1) ∧
     (processOneEdge^[3] activeState).buzzerTwoSuspended = decide (3 % 2 = 1) ∧
     (processOneEdge^[3] activeState).buzzer_task_started = decide (3 % 2 = 0)) :=
  ⟨rfl, rfl, rfl, toggle_parity 3 activeState rfl rfl rfl⟩

/-- C5: an invocation of GPIO_EVEN_IRQHandler with the button's bit set in
the pending-and-enabled mask invokes exactly the pending-bit clear followed
by one thread-flag set for the button task, leaves the button's pending bit
clear in the resulting state, leaves the wakeup flag set, and changes no
other field. -/
theorem irq_handler_confirmed_edge (s : SysState)
    (h : s.gpioPending &&& ESWGPIO_EXTI_IF ≠ 0) :
    (GPIO_EVEN_IRQHandler s).2 =
      [Call.intClear ESWGPIO_EXTI_IF,
       Call.threadFlagsSet TaskId.button buttonExtIntThreadFlag] ∧
    (GPIO_EVEN_IRQHandler s).2.count
      (Call.threadFlagsSet TaskId.button buttonExtIntThreadFlag) = 1 ∧
    (GPIO_EVEN_IRQHandler s).1.gpioPending &&& ESWGPIO_EXTI_IF = 0 ∧
    (GPIO_EVEN_IRQHandler s).1.buttonThreadFlag = true ∧
    (GPIO_EVEN_IRQHandler s).1.buzzer_task_started = s.buzzer_task_started ∧
    (GPIO_EVEN_IRQHandler s).1.buzzerSuspended = s.buzzerSuspended ∧
    (GPIO_EVEN_IRQHandler s).1.buzzerTwoSuspended = s.buzzerTwoSuspended ∧
    (GPIO_EVEN_IRQHandler s).1.pinPA0 = s.pinPA0 := by
  have hh : GPIO_EVEN_IRQHandler s =
      (applyCalls s [Call.intClear ESWGPIO_EXTI_IF,
                     Call.threadFlagsSet TaskId.button buttonExtIntThreadFlag],
       [Call.intClear ESWGPIO_EXTI_IF,
        Call.threadFlagsSet TaskId.button buttonExtIntThreadFlag]) := by
    simp [GPIO_EVEN_IRQHandler, h]
  rw [hh]
  exact ⟨rfl, by simp, land_mask_exti s.gpioPending, rfl, rfl, rfl, rfl, rfl⟩

/-- Witness for C5: the handler evaluated at a state whose pending mask has
the button's bit set. -/
theorem irq_handler_confirmed_edge_witness :
    { initState with gpioPending := 0x10 }.gpioPending &&& ESWGPIO_EXTI_IF ≠ 0 ∧
    ((GPIO_EVEN_IRQHandler { initState with gpioPending := 0x10 }).1.gpioPending &&&
        ESWGPIO_EXTI_IF = 0 ∧
     (GPIO_EVEN_IRQHandler { initState with gpioPending := 0x10 }).1.buttonThreadFlag
        = true) :=
  ⟨by decide,
   ⟨(irq_handler_confirmed_edge { initState with gpioPending := 0x10 } (by decide)).2.2.1,
    (irq_handler_confirmed_edge { initState with gpioPending := 0x10 } (by decide)).2.2.2.1⟩⟩

/-- Control Task cycles after a burst with no further edges: each cycle
clears the flag, and the wait returns (consuming the flag, followed by one
toggle pass) only if the flag is set at the wait; the fuel bounds the number
of cycles examined. Returns the state and the number of toggle passes. -/
def drainToggles (s : SysState) : Nat → SysState × Nat
  | 0 => (s, 0)
  | fuel + 1 =>
    let s1 := button_flags_clear s
    if button_wait_returns s1 then
      let s2 := (button_toggle (button_wait s1)).1
      let r := drainToggles s2 fuel
      (r.1, r.2 + 1)
    else
      (s1, 0)

/-- A burst of K edges all delivered before the Control Task next clears the
wakeup flag: the first edge wakes the blocked task (if its wait returns),
giving one toggle pass; the remaining K - 1 edges land during that toggle
processing; the task then loops, clearing the flag and waiting, with no
further edges. Returns the number of toggle passes performed for the burst. -/
def burstToggles (s : SysState) (K fuel : Nat) : Nat :=
  let s1 := deliverEdge s
  if button_wait_returns s1 then
    let s2 := (button_toggle (button_wait s1)).1
    let s3 := deliverEdge^[K - 1] s2
    1 + (drainToggles s3 fuel).2
  else
    (drainToggles (deliverEdge^[K - 1] s1) fuel).2

/-- Delivering an edge always leaves the wakeup flag set. -/
lemma deliverEdge_flag (s : SysState) : (deliverEdge s).buttonThreadFlag = true := by
  have hcond : (s.gpioPending ||| ESWGPIO_EXTI_IF) &&& ESWGPIO_EXTI_IF ≠ 0 := by
    rw [lor_land_self]; decide
  simp [deliverEdge, GPIO_EVEN_IRQHandler, hcond, applyCalls, applyCall]

/-- With no further edges, the Control Task performs no toggle pass after its
clear: the wait never returns. -/
lemma drainToggles_count_zero (s : SysState) (fuel : Nat) :
    (drainToggles s fuel).2 = 0 := by
  cases fuel with
  | zero => rfl
  | succ n => simp [drainToggles, button_flags_clear, button_wait_returns]

/-- C6: a burst of K edges (K at least 2) delivered before the Control Task
next clears the wakeup flag produces exactly one toggle pass, not K: the
single-bit flag coalesces the K sets into one wakeup. -/
theorem burst_coalesces_to_one_toggle (K fuel : Nat) (hK : 2 <= K) (s : SysState) :
    burstToggles s K fuel = 1 ∧ burstToggles s K fuel ≠ K := by
  have h1 : burstToggles s K fuel = 1 := by
    simp [burstToggles, button_wait_returns, deliverEdge_flag, drainToggles_count_zero]
  exact ⟨h1, by omega⟩

/-- Witness for C6: a burst of two edges from the startup state yields one
toggle pass. -/
theorem burst_coalesces_to_one_toggle_witness :
    2 <= 2 ∧ (burstToggles initState 2 3 = 1 ∧ burstToggles initState 2 3 ≠ 2) :=
  ⟨by decide, burst_coalesces_to_one_toggle 2 3 (by decide) initState⟩

/-- Moments at which an asynchronous flag-set can land inside button_loop's
loop head, between the previous wait's return and the next wait's start
(main.c lines 183-184). -/
inductive SignalMoment
  | beforeClear
  | betweenClearAndWait
  deriving DecidableEq, Repr

/-- osThreadFlagsSet on the button task viewed alone, as invoked from the
interrupt handler. -/
def setSignal (s : SysState) : SysState :=
  { s with buttonThreadFlag := true }

/-- Flag state the next osThreadFlagsWait observes when a single signal-set
lands at the given moment during the loop head, with no other set. -/
def loopHeadWithSignal (s : SysState) (m : SignalMoment) : SysState :=
  match m with
  | SignalMoment.beforeClear => button_flags_clear (setSignal s)
  | SignalMoment.betweenClearAndWait => setSignal (button_flags_clear s)

/-- C7 counterexample: it is not the case that a signal set at any moment
between the previous wait's return and the next wait's start is observed by
that wait: a signal set before the osThreadFlagsClear is erased by the clear
and the wait blocks. -/
theorem signal_before_clear_lost :
    ¬ (∀ (s : SysState) (m : SignalMoment),
        button_wait_returns (loopHeadWithSignal s m) = true) := by
  intro h
  exact absurd (h initState SignalMoment.beforeClear) (by decide)

/-- C7 amended: button_loop clears the flag and then waits; a signal set
after the clear and before the wait is never lost (the wait returns, since
it checks the flag's level), while a signal set between the previous wait's
return and the clear is erased by the clear and the next wait blocks (it
coalesces with the wake already being processed). -/
theorem clear_then_wait_window (s : SysState) :
    button_wait_returns (loopHeadWithSignal s SignalMoment.betweenClearAndWait) = true ∧
    button_wait_returns (loopHeadWithSignal s SignalMoment.beforeClear) = false :=
  ⟨rfl, rfl⟩

end EswGpio
